import Mathlib

/-!
Verification of the schadeautos damaged-car deal pipeline.

The definitions below are shallow embeddings of the Python source:
* `analyze_damage_text` — `backend/scrapers/marktplaats_scraper.py`
* `clean_price` (two variants) — `backend/scrapers/base_scraper.py` and
  `backend/profitable_car_scraper.py`
* `MarketPriceService` (live sampling, cache, static fallback, deal metrics)
  — `backend/market_price_service.py`
* `SchadeautosScraper` (per-candidate deal filtering, DB median lookup)
  — `backend/scrapers/schadeautos_scraper.py`
* the Marktplaats search-term loop and the orchestration / scheduler logic
  — `backend/scrapers/marktplaats_scraper.py`, `backend/scraping_service.py`,
  `backend/background_scheduler.py`, `backend/main.py`.

Python floats are modelled as `ℚ`, machine strings as `List Char`, and
fallible operations as `Option`.
-/

namespace Schade

/-- Python `str.lower()` on the texts involved (ASCII-relevant case folding). -/
def lowerText (s : List Char) : List Char := s.map Char.toLower

/-- Python `kw in text` substring membership on already-lowercased text. -/
def containsSub (text kw : List Char) : Bool := decide (kw <:+: text)

/-! ### Damage lexicons (`marktplaats_scraper.py` lines 10–77, verbatim) -/

/-- `GOOD_DAMAGE_KEYWORDS`: cosmetic-damage lexicon. -/
def GOOD_DAMAGE_KEYWORDS : List (List Char) :=
  [ "zijschade".toList, "zij schade".toList, "zijkant schade".toList,
    "zijkant beschadigd".toList, "beide zijkanten".toList, "zijkanten".toList,
    "cosmetische schade".toList, "lichte schade".toList, "kleine schade".toList,
    "lakschade".toList, "lakbeschadiging".toList, "verf schade".toList,
    "deuk".toList, "deukje".toList, "deukjes".toList, "deuken".toList,
    "parkeerdeuk".toList, "bumperdeuk".toList,
    "kras".toList, "krassen".toList, "krasje".toList, "krasjes".toList,
    "bekrast".toList,
    "bumper schade".toList, "bumper beschadigd".toList, "bumperschade".toList,
    "hagelschade".toList, "hagel schade".toList,
    "plaatwerk schade".toList, "plaatwerkschade".toList,
    "carrosserie schade".toList,
    "aanrijding".toList, "aanrijdingsschade".toList,
    "schade".toList, "beschadigd".toList, "beschadigde".toList,
    "side damage".toList, "cosmetic damage".toList, "minor damage".toList,
    "paint damage".toList, "dent".toList, "scratch".toList,
    "bumper damage".toList, "hail damage".toList, "body damage".toList ]

/-- `SEVERE_DAMAGE_KEYWORDS`: severe/technical damage lexicon. -/
def SEVERE_DAMAGE_KEYWORDS : List (List Char) :=
  [ "motorschade".toList, "motor defect".toList, "motor kapot".toList,
    "kapotte motor".toList, "motor is kapot".toList, "motor tikt".toList,
    "motor rammelt".toList,
    "versnellingsbak defect".toList, "versnellingsbak kapot".toList,
    "koppeling defect".toList, "koppeling kapot".toList,
    "turbo defect".toList, "turbo kapot".toList,
    "frame schade".toList, "chassis schade".toList, "constructie schade".toList,
    "water schade".toList, "waterschade".toList, "brand schade".toList,
    "brandschade".toList, "ondergelopen".toList,
    "total loss".toList, "totaal verlies".toList, "total-loss".toList,
    "niet rijdend".toList, "rijdt niet".toList, "niet rijdbaar".toList,
    "start niet".toList, "spring niet aan".toList,
    "airbag afgegaan".toList, "airbag defect".toList, "airbag deployed".toList,
    "airbag eruit".toList, "airbags afgegaan".toList,
    "airbag geactiveerd".toList,
    "autowrak".toList, "sloop".toList, "sloopauto".toList,
    "engine damage".toList, "engine failure".toList, "gearbox damage".toList,
    "flood damage".toList, "fire damage".toList, "structural damage".toList,
    "frame damage".toList, "total loss".toList, "write-off".toList,
    "salvage".toList, "not running".toList ]

/-- `TECHNICAL_PROBLEM_PHRASES`: technical-problem phrase lexicon. -/
def TECHNICAL_PROBLEM_PHRASES : List (List Char) :=
  [ "motor loopt niet".toList, "motor slaat niet aan".toList,
    "motor maakt geluid".toList, "motor rookt".toList, "olie lekt".toList,
    "koelvloeistof lekt".toList,
    "schakelt niet".toList, "schakelproblemen".toList, "bak kraakt".toList,
    "elektrisch defect".toList, "storing motor".toList,
    "startmotor defect".toList,
    "oververhit".toList, "kop defect".toList, "cilinderkop".toList ]

/-- `positive_signs` context clues (`analyze_damage_text` body). -/
def positive_signs : List (List Char) :=
  [ "technisch in orde".toList, "technisch goed".toList, "rijdt prima".toList,
    "rijdt goed".toList, "mechanisch in orde".toList,
    "mechanisch goed".toList, "loopt goed".toList, "loopt prima".toList,
    "motor loopt goed".toList, "motor is goed".toList,
    "geen technische".toList,
    "alleen cosmetisch".toList, "alleen optisch".toList,
    "alleen uiterlijk".toList, "schade is alleen".toList,
    "verder in goede staat".toList,
    "apk".toList, "nieuwe apk".toList ]

/-- Result record of `analyze_damage_text`. -/
structure DamageVerdict where
  is_cosmetic : Bool
  reason : String
  damage_types : List (List Char)
  deriving Repr, DecidableEq

/-- `analyze_damage_text` (`marktplaats_scraper.py` lines 80–133): severe
keywords first, then technical-problem phrases, then cosmetic keywords;
no match at all yields the `No damage keywords found` verdict. -/
def analyze_damage_text (text : List Char) : DamageVerdict :=
  let text_lower := lowerText text
  match SEVERE_DAMAGE_KEYWORDS.find? (fun kw => containsSub text_lower kw) with
  | some keyword =>
      { is_cosmetic := false
        reason := "Severe damage: " ++ String.mk keyword
        damage_types := [keyword] }
  | none =>
    match TECHNICAL_PROBLEM_PHRASES.find? (fun p => containsSub text_lower p) with
    | some phrase =>
        { is_cosmetic := false
          reason := "Technical problem: " ++ String.mk phrase
          damage_types := [phrase] }
    | none =>
      let cosmetic_found :=
        GOOD_DAMAGE_KEYWORDS.filter (fun kw => containsSub text_lower kw)
      let has_positive := positive_signs.any (fun s => containsSub text_lower s)
      if cosmetic_found ≠ [] then
        { is_cosmetic := true
          reason := "Cosmetic damage found" ++
            (if has_positive then " + drives well" else "")
          damage_types := cosmetic_found }
      else
        { is_cosmetic := false
          reason := "No damage keywords found"
          damage_types := [] }

/-! ### Price text normalisation -/

/-- Digit string to natural number (base 10), as Python `int`/`float` digit
accumulation does. -/
def digitsToNat (s : List Char) : Nat :=
  s.foldl (fun n c => 10 * n + (c.toNat - '0'.toNat)) 0

/-- Python `float(s)` restricted to strings over digits and `'.'` (the only
characters that survive the cleaning steps): accepts at most one dot and at
least one digit, otherwise raises, modelled as `none`. -/
def pyFloat (s : List Char) : Option ℚ :=
  if s.any Char.isDigit ∧ s.count '.' ≤ 1 ∧
      s.all (fun c => c.isDigit || c == '.') then
    let ip := s.takeWhile (fun c => c ≠ '.')
    let fp := (s.dropWhile (fun c => c ≠ '.')).drop 1
    some ((digitsToNat ip : ℚ) + (digitsToNat fp : ℚ) / (10 : ℚ) ^ fp.length)
  else none

/-- `BaseScraper.clean_price` (`base_scraper.py` lines 116–126): strip `€`,
drop every `'.'`, turn `','` into `'.'`, keep digits and dots, parse. -/
def cleanPriceBase (price_text : List Char) : Option ℚ :=
  if price_text = [] then none
  else
    let t1 := price_text.filter (fun c => c ≠ '€')
    let t2 := t1.filter (fun c => c ≠ '.')
    let t3 := t2.map (fun c => if c = ',' then '.' else c)
    let t4 := t3.filter (fun c => c.isDigit || c == '.')
    pyFloat t4

/-- Python `s.replace("EUR", "")` (left-to-right, non-overlapping). -/
def removeEUR : List Char → List Char
  | 'E' :: 'U' :: 'R' :: rest => removeEUR rest
  | c :: rest => c :: removeEUR rest
  | [] => []

/-- Python `s.replace(",-", "")` (left-to-right, non-overlapping). -/
def removeCommaDash : List Char → List Char
  | ',' :: '-' :: rest => removeCommaDash rest
  | c :: rest => c :: removeCommaDash rest
  | [] => []

/-- Length of the group after the last `','` (Python
`len(s.split(',')[-1])`). -/
def lastCommaGroupLen (s : List Char) : Nat :=
  (s.reverse.takeWhile (fun c => c ≠ ',')).length

/-- `ProfitableCarScraper.clean_price` (`profitable_car_scraper.py` lines
261–295): strip `€`/`EUR`/`,-`, keep digits/`.`/`,`, then apply the Dutch
thousands/decimal disambiguation before parsing. -/
def cleanPriceProfitable (price_text : List Char) : Option ℚ :=
  if price_text = [] then none
  else
    let t1 := price_text.filter (fun c => c ≠ '€')
    let t2 := removeCommaDash (removeEUR t1)
    let t3 := t2.filter (fun c => c.isDigit || c == '.' || c == ',')
    if t3 = [] then none
    else
      let t4 :=
        if t3.contains ',' && t3.contains '.' then
          -- both separators: '.' is thousands, ',' is decimal
          (t3.filter (fun c => c ≠ '.')).map (fun c => if c = ',' then '.' else c)
        else if t3.contains '.' && !t3.contains ',' then
          -- only '.': thousands separator iff exactly two parts, 3 digits after
          if t3.count '.' = 1 ∧
              ((t3.dropWhile (fun c => c ≠ '.')).drop 1).length = 3 then
            t3.filter (fun c => c ≠ '.')
          else t3
        else if t3.contains ',' then
          -- only ',': decimal iff the last comma group has ≤ 2 digits
          if lastCommaGroupLen t3 ≤ 2 then
            t3.map (fun c => if c = ',' then '.' else c)
          else t3.filter (fun c => c ≠ ',')
        else t3
      pyFloat t4

/-! ### Median and Python rounding -/

/-- Insertion into a sorted list of rationals. -/
def insertSorted (x : ℚ) : List ℚ → List ℚ
  | [] => [x]
  | y :: ys => if x ≤ y then x :: y :: ys else y :: insertSorted x ys

/-- Ascending sort, as Python `sorted` (value sequence agrees for rationals). -/
def sortRat (l : List ℚ) : List ℚ := l.foldr insertSorted []

/-- Python `statistics.median`: middle element for odd length, mean of the two
middle elements for even length. -/
def median (l : List ℚ) : ℚ :=
  let s := sortRat l
  let n := l.length
  if n % 2 = 1 then s.getD (n / 2) 0
  else (s.getD (n / 2 - 1) 0 + s.getD (n / 2) 0) / 2

/-- Python `round` to an integer: round half to even. -/
def pyRoundHalfEven (x : ℚ) : ℤ :=
  if x - ⌊x⌋ < 1/2 then ⌊x⌋
  else if 1/2 < x - ⌊x⌋ then ⌊x⌋ + 1
  else if Even ⌊x⌋ then ⌊x⌋ else ⌊x⌋ + 1

/-- Python `round(x, 1)`. -/
def pyRound1 (x : ℚ) : ℚ := (pyRoundHalfEven (x * 10) : ℚ) / 10

/-! ### MarketPriceService (`market_price_service.py`) -/

/-- Python `str.lower()` on `String`. -/
def lowerStr (s : String) : String := String.mk (lowerText s.toList)

/-- Cache key `(make.lower(), model.lower(), year)`. -/
abbrev PriceKey := String × String × Int

/-- The `_price_cache` dict, as an association list (later entries shadowed
by earlier ones, insertion at the head). -/
abbrev PriceCache := List (PriceKey × Option ℚ)

/-- Dict membership + lookup: `cache_key in self._price_cache` and the read. -/
def cacheLookup (cache : PriceCache) (k : PriceKey) : Option (Option ℚ) :=
  (cache.find? (fun e => e.1 = k)).map Prod.snd

/-- One raw listing returned by the Marktplaats search API, as consumed by
`_search_marktplaats_prices`: title/description text, `priceCents` (absent or
zero is falsy), and the `constructionYear` attribute (absent or zero is
falsy). -/
structure MpListing where
  title : List Char
  description : List Char
  priceCents : Option Nat
  carYear : Option Int
  deriving Repr, DecidableEq

/-- Damage/parts keywords excluded from the live price sample
(`market_price_service.py` line 118). -/
def damageFilterKeywords : List (List Char) :=
  [ "schade".toList, "damage".toList, "beschadigd".toList,
    "total loss".toList, "defect".toList, "kapot".toList,
    "onderdelen".toList, "parts".toList ]

/-- The per-listing filter of `_search_marktplaats_prices` (lines 111–162):
skip damage listings, absent/zero prices, prices below €1000 or above
€30000, and listings whose known construction year falls outside
`[year-1, year+1]`. -/
def listingPrice (year : Int) (l : MpListing) : Option ℚ :=
  let combined := lowerText l.title ++ [' '] ++ lowerText l.description
  if damageFilterKeywords.any (fun kw => containsSub combined kw) then none
  else
    match l.priceCents with
    | none => none
    | some pc =>
      if pc = 0 then none
      else
        let price : ℚ := (pc : ℚ) / 100
        if price < 1000 then none
        else if price > 30000 then none
        else
          match l.carYear with
          | none => some price
          | some y =>
            if y ≠ 0 ∧ (y < year - 1 ∨ y > year + 1) then none
            else some price

/-- `_search_marktplaats_prices`: filtered prices, first 10 kept
(`return prices[:10]`, line 174). -/
def searchMarktplaatsPrices (year : Int) (listings : List MpListing) : List ℚ :=
  (listings.filterMap (listingPrice year)).take 10

/-- Result of one `fetch_live_market_price` call: the returned value, the
cache afterwards, and how many external searches were performed. -/
structure FetchResult where
  value : Option ℚ
  cache : PriceCache
  external_lookups : Nat
  deriving Repr

/-- `fetch_live_market_price` (lines 43–72): answer from the cache when the
key is present (no external search); otherwise search, return the median of
the sample when it is non-empty, and cache the outcome — including the
failed (`None`) outcome. -/
def fetch_live_market_price (cache : PriceCache) (make model : String)
    (year : Int) (listings : List MpListing) : FetchResult :=
  match cacheLookup cache (lowerStr make, lowerStr model, year) with
  | some v => ⟨v, cache, 0⟩
  | none =>
    if searchMarktplaatsPrices year listings = [] then
      ⟨none, ((lowerStr make, lowerStr model, year), none) :: cache, 1⟩
    else
      ⟨some (median (searchMarktplaatsPrices year listings)),
       ((lowerStr make, lowerStr model, year),
        some (median (searchMarktplaatsPrices year listings))) :: cache, 1⟩

/-- `self.fallback_prices` (lines 25–41), keyed `(make, model.lower())`. -/
def fallback_prices : List ((String × String) × ℚ) :=
  [ (("Volkswagen", "polo"), 3450), (("Volkswagen", "golf"), 3450),
    (("Volkswagen", "up"), 3450),
    (("Toyota", "yaris"), 4500), (("Toyota", "aygo"), 4500),
    (("Kia", "picanto"), 2850), (("Fiat", "500"), 3000),
    (("Suzuki", "swift"), 2499), (("Ford", "fiesta"), 2248),
    (("Renault", "clio"), 1800), (("Opel", "corsa"), 1500),
    (("Opel", "astra"), 1500), (("Hyundai", "i10"), 2500),
    (("Citroen", "c1"), 2000), (("Peugeot", "107"), 2000) ]

/-- `get_market_price` (lines 176–194): cached live price when present and
not `None`; otherwise the static fallback price depreciated from the 2020
baseline by `0.9 ** max(0, 2020 - year)`; otherwise `None`. -/
def get_market_price (cache : PriceCache) (make model : String)
    (year : Int) : Option ℚ :=
  match cacheLookup cache (lowerStr make, lowerStr model, year) with
  | some (some v) => some v
  | _ =>
    match (fallback_prices.find? (fun e => e.1 = (make, lowerStr model))).map
        Prod.snd with
    | some fp => some (fp * ((9 : ℚ)/10) ^ (max 0 (2020 - year)).toNat)
    | none => none

/-- Deal metrics triple attached to a car. -/
structure DealMetrics where
  market_price : Option ℚ
  profit_percentage : Option ℚ
  deal_rating : Option String
  deriving Repr, DecidableEq

/-- The rating chain of `calculate_deal_metrics` (lines 211–218). -/
def serviceDealRating (pp : ℚ) : String :=
  if pp ≥ 50 then "excellent"
  else if pp ≥ 30 then "good"
  else if pp ≥ 15 then "fair"
  else "poor"

/-- `calculate_deal_metrics` (lines 196–224): resolve the market price
(falsy — `None` or `0` — gives all-null metrics), compute
`(market - price) / market * 100`, rate it. -/
def calculate_deal_metrics (cache : PriceCache) (make model : String)
    (year : Int) (car_price : ℚ) : DealMetrics :=
  match get_market_price cache make model year with
  | none => ⟨none, none, none⟩
  | some mp =>
    if mp = 0 then ⟨none, none, none⟩
    else
      ⟨some mp, some ((mp - car_price) / mp * 100),
       some (serviceDealRating ((mp - car_price) / mp * 100))⟩

/-! ### SchadeautosScraper (`schadeautos_scraper.py`) -/

/-- The rating chain of `SchadeautosScraper.scrape_search_results`
(lines 127–132): note there is no `poor` branch. -/
def schadeautosDealRating (pp : ℚ) : String :=
  if pp ≥ 50 then "excellent"
  else if pp ≥ 30 then "good"
  else "fair"

/-- A candidate record entering the per-year loop of
`SchadeautosScraper.scrape_search_results` (url and parsed price; an empty
url is falsy). -/
structure SACandidate where
  url : String
  price : Option ℚ
  deriving Repr, DecidableEq

/-- A record the SchadeAutos adapter emits for persistence (the fields the
deal logic writes). -/
structure SARecord where
  url : String
  price : ℚ
  market_price : ℚ
  profit_percentage : ℚ
  deal_rating : String
  deriving Repr, DecidableEq

/-- The candidate loop of `scrape_search_results` (lines 111–148) for one
year with resolved market price `mp`: skip empty/seen urls (marking the url
seen happens before the price checks), skip falsy prices and prices ≤ €500,
skip prices above `0.70 * mp`, otherwise emit the record with the rounded
profit percentage and the rating.  A `none`/zero price is subsumed by the
`≤ 500` test exactly as Python's `if not price or price <= 500`. -/
def processYearCandidates (mp : ℚ) :
    List SACandidate → List String → List SARecord
  | [], _ => []
  | c :: rest, seen =>
    if c.url = "" ∨ c.url ∈ seen then processYearCandidates mp rest seen
    else
      match c.price with
      | none => processYearCandidates mp rest (c.url :: seen)
      | some p =>
        if p ≤ 500 then processYearCandidates mp rest (c.url :: seen)
        else if p > mp * (7/10) then
          processYearCandidates mp rest (c.url :: seen)
        else
          { url := c.url, price := p, market_price := mp,
            profit_percentage := pyRound1 ((mp - p) / mp * 100),
            deal_rating := schadeautosDealRating ((mp - p) / mp * 100) } ::
            processYearCandidates mp rest (c.url :: seen)

/-- A `cars` row as read by `_get_market_price_from_db` (the query keeps only
rows with `market_price IS NOT NULL`; a stored `0` is then dropped by the
Python truthiness filter). -/
structure DbCar where
  source_website : String
  make : List Char
  model : List Char
  year : Int
  market_price : Option ℚ
  deriving Repr

/-- `_get_market_price_from_db` (lines 179–212): median of the Marktplaats
rows matching make/model (case-insensitive containment, SQL `ilike
'%…%'`) and the *exact* year, provided at least 3 non-null non-zero prices
remain; otherwise `None`. -/
def getMarketPriceFromDb (rows : List DbCar) (make model : List Char)
    (year : Int) : Option ℚ :=
  let prices := rows.filterMap (fun r =>
    if r.source_website = "marktplaats.nl" ∧
        containsSub (lowerText r.make) (lowerText make) ∧
        containsSub (lowerText r.model) (lowerText model) ∧
        r.year = year then
      match r.market_price with
      | some p => if p ≠ 0 then some p else none
      | none => none
    else none)
  if 3 ≤ prices.length then some (median prices) else none

/-- The market-price resolution of `scrape_search_results` lines 96–98: DB
median first; on a falsy result fall back to
`MarketPriceService().get_market_price` — a fresh service instance, hence an
empty live-price cache. -/
def saResolveMarketPrice (rows : List DbCar) (make model : String)
    (year : Int) : Option ℚ :=
  match getMarketPriceFromDb rows make.toList model.toList year with
  | some mp => if mp = 0 then get_market_price [] make model year else some mp
  | none => get_market_price [] make model year

/-! ### Marktplaats search-term loop (`marktplaats_scraper.py` lines 141–222) -/

/-- One pass of the Marktplaats term loop, as a function of the per-term
fetch outcomes (`true` = non-empty HTML) and the outcomes of successive
browser-restart attempts.  Returns the indices of the terms whose listings
were actually extracted.  Control flow embedded:
* every 5th search (index `i > 0`, `i % 5 = 0`) restarts the browser; a
  failed restart `break`s the whole loop;
* an empty fetch increments `consecutive_crashes`; at 3 the browser is
  restarted — success resets the counter and continues, failure `break`s;
* a successful fetch resets the counter and processes the term. -/
def mpTermLoop (restarts : Nat → Bool) :
    List Bool → Nat → Nat → Nat → List Nat
  | [], _, _, _ => []
  | fetch :: rest, i, consec, rUsed =>
    let afterPeriodic : Option (Nat × Nat) :=
      if 0 < i ∧ i % 5 = 0 then
        if restarts rUsed then some (0, rUsed + 1) else none
      else some (consec, rUsed)
    match afterPeriodic with
    | none => []
    | some (consec1, rUsed1) =>
      if fetch then
        i :: mpTermLoop restarts rest (i + 1) 0 rUsed1
      else
        if 3 ≤ consec1 + 1 then
          if restarts rUsed1 then
            mpTermLoop restarts rest (i + 1) 0 (rUsed1 + 1)
          else []
        else mpTermLoop restarts rest (i + 1) (consec1 + 1) rUsed1

/-! ### Run-level orchestration (`scraping_service.py`, dedup and upserts) -/

/-- The Marktplaats url-dedup fold (lines 199–211): candidates stream in
iteration order over all search terms; a url already in `seen_urls` is
skipped before the detail fetch, otherwise it is marked seen and yields a
record when the detail fetch and damage analysis keep it (`keep`). -/
def mpCollectUrls (keep : String → Bool) :
    List String → List String → List String
  | [], _ => []
  | u :: rest, seen =>
    if u ∈ seen then mpCollectUrls keep rest seen
    else if keep u then u :: mpCollectUrls keep rest (u :: seen)
    else mpCollectUrls keep rest (u :: seen)

/-- The second dedup pass over `all_cars` (lines 213–219). -/
def dedupPass : List String → List String → List String
  | [], _ => []
  | u :: rest, seen =>
    if u ∈ seen then dedupPass rest seen
    else u :: dedupPass rest (u :: seen)

/-- Full Marktplaats url output for a run: the per-term candidate lists are
concatenated in iteration order, deduplicated on the fly, then deduplicated
once more. -/
def mpRunUrls (keep : String → Bool) (termCandidates : List (List String)) :
    List String :=
  dedupPass (mpCollectUrls keep termCandidates.flatten []) []

/-- `_scrape_with_scraper` (lines 59–97) issues exactly one upsert per
record of the scraper's output list; `run_scraping_session` (lines 135–165)
runs the two sources one after the other, each with its own
`_scrape_with_scraper` call.  Total upserts issued for a url in one run. -/
def runUpsertCount (marktplaatsOut schadeautosOut : List String)
    (u : String) : Nat :=
  marktplaatsOut.count u + schadeautosOut.count u

/-! ### Scheduler mutual exclusion (`background_scheduler.py`, `main.py`) -/

/-- A trigger for a scraping run: the scheduler path
(`BackgroundScheduler.run_scraping_job`) or the manual API path
(`POST /api/scraping/run` → `run_scraping`). -/
inductive RunTrigger
  | scheduled
  | manualApi
  deriving Repr, DecidableEq

/-- Observable run state: the scheduler's `scraping_in_progress` flag and
the number of currently active pipeline runs. -/
structure RunState where
  scraping_in_progress : Bool
  active_runs : Nat
  deriving Repr, DecidableEq

/-- How many new runs a trigger starts (`background_scheduler.py` lines
16–22: the scheduled path returns immediately when the flag is set;
`main.py` lines 206–210: the manual path unconditionally schedules
`_run_scraping_task` as a background task). -/
def runsStartedBy (s : RunState) : RunTrigger → Nat
  | .scheduled => if s.scraping_in_progress then 0 else 1
  | .manualApi => 1

/-- State after a trigger: a skipped scheduled trigger changes nothing (no
queueing); an accepted scheduled trigger sets the flag and starts a run; a
manual trigger starts a run without consulting or setting the flag. -/
def stepTrigger (s : RunState) : RunTrigger → RunState
  | .scheduled =>
    if s.scraping_in_progress then s
    else { scraping_in_progress := true, active_runs := s.active_runs + 1 }
  | .manualApi => { s with active_runs := s.active_runs + 1 }

/-- Indices of the successful fetches: what the Marktplaats term loop
processes when no browser restart ever fails. -/
def processedAll : List Bool → Nat → List Nat
  | [], _ => []
  | true :: rest, i => i :: processedAll rest (i + 1)
  | false :: rest, i => processedAll rest (i + 1)

/-- `run_scraping_session` (`scraping_service.py` lines 135–165): each
source adapter runs inside its own try/except, and its per-source result —
success with its car-url list, or failure — is appended regardless of the
other source's outcome. -/
def run_scraping_session (marktplaatsOutcome schadeautosOutcome :
    Option (List String)) : List (String × Bool) :=
  [("marktplaats.nl", marktplaatsOutcome.isSome),
   ("schadeautos.nl", schadeautosOutcome.isSome)]

/-! ## Claim theorems -/

/-- Occurrence of a lexicon term in a text, case-insensitively as a
substring: the lowered term list is an infix of the lowered text.  (All
lexicon entries are already lowercase.) -/
def occursIn (text : List Char) (kw : List Char) : Prop :=
  kw <:+: lowerText text

instance (text kw : List Char) : Decidable (occursIn text kw) :=
  List.decidableInfix kw (lowerText text)

lemma containsSub_iff (text kw : List Char) :
    containsSub text kw = true ↔ kw <:+: text := by
  simp [containsSub]

/-- The verdict's cosmetic bit, in terms of the raw search primitives. -/
lemma analyze_is_cosmetic_iff (text : List Char) :
    (analyze_damage_text text).is_cosmetic = true ↔
      (SEVERE_DAMAGE_KEYWORDS.find?
          (fun kw => containsSub (lowerText text) kw) = none ∧
       TECHNICAL_PROBLEM_PHRASES.find?
          (fun p => containsSub (lowerText text) p) = none ∧
       GOOD_DAMAGE_KEYWORDS.filter
          (fun kw => containsSub (lowerText text) kw) ≠ []) := by
  unfold analyze_damage_text
  cases hs : SEVERE_DAMAGE_KEYWORDS.find?
      (fun kw => containsSub (lowerText text) kw) with
  | some kw => simp [hs]
  | none =>
    cases ht : TECHNICAL_PROBLEM_PHRASES.find?
        (fun p => containsSub (lowerText text) p) with
    | some p => simp [hs, ht]
    | none =>
      by_cases hg : GOOD_DAMAGE_KEYWORDS.filter
          (fun kw => containsSub (lowerText text) kw) = [] <;>
        simp [hs, ht, hg]

/-- C1: `analyze_damage_text` classifies a text as cosmetic iff no severe
term and no technical-problem phrase occurs in it (case-insensitive
substring) and at least one cosmetic term occurs; a text containing both
`motorschade` and `lakschade` is non-cosmetic; a text matching no lexicon
yields the non-cosmetic `No damage keywords found` verdict. -/
theorem C1_damage_classifier_correct :
    (∀ text : List Char,
      (analyze_damage_text text).is_cosmetic = true ↔
        ((∀ kw ∈ SEVERE_DAMAGE_KEYWORDS, ¬ occursIn text kw) ∧
         (∀ p ∈ TECHNICAL_PROBLEM_PHRASES, ¬ occursIn text p) ∧
         (∃ kw ∈ GOOD_DAMAGE_KEYWORDS, occursIn text kw))) ∧
    (∀ text : List Char,
      occursIn text "motorschade".toList →
      occursIn text "lakschade".toList →
      (analyze_damage_text text).is_cosmetic = false) ∧
    (∀ text : List Char,
      (∀ kw ∈ SEVERE_DAMAGE_KEYWORDS ++ TECHNICAL_PROBLEM_PHRASES ++
          GOOD_DAMAGE_KEYWORDS, ¬ occursIn text kw) →
      analyze_damage_text text =
        ⟨false, "No damage keywords found", []⟩) := by
  have main : ∀ text : List Char,
      (analyze_damage_text text).is_cosmetic = true ↔
        ((∀ kw ∈ SEVERE_DAMAGE_KEYWORDS, ¬ occursIn text kw) ∧
         (∀ p ∈ TECHNICAL_PROBLEM_PHRASES, ¬ occursIn text p) ∧
         (∃ kw ∈ GOOD_DAMAGE_KEYWORDS, occursIn text kw)) := by
    intro text
    rw [analyze_is_cosmetic_iff, List.find?_eq_none, List.find?_eq_none]
    have hfil : (GOOD_DAMAGE_KEYWORDS.filter
        (fun kw => containsSub (lowerText text) kw) ≠ []) ↔
        ∃ kw ∈ GOOD_DAMAGE_KEYWORDS,
          containsSub (lowerText text) kw = true := by
      rw [Ne, List.filter_eq_nil_iff]
      push_neg
      simp
    rw [hfil]
    simp [occursIn, containsSub]
  refine ⟨main, ?_, ?_⟩
  · intro text hmotor _hlak
    have h := (main text).not
    by_contra hc
    have hct : (analyze_damage_text text).is_cosmetic = true := by
      cases hcb : (analyze_damage_text text).is_cosmetic with
      | false => exact absurd hcb hc
      | true => rfl
    rcases (main text).mp hct with ⟨hnos, _, _⟩
    exact hnos "motorschade".toList (by simp [SEVERE_DAMAGE_KEYWORDS]) hmotor
  · intro text hnone
    have hs : SEVERE_DAMAGE_KEYWORDS.find?
        (fun kw => containsSub (lowerText text) kw) = none := by
      rw [List.find?_eq_none]
      intro kw hkw
      simp only [containsSub_iff, Bool.not_eq_true, ← Bool.not_eq_true,
        decide_eq_true_eq]
      exact fun h => hnone kw (by simp [hkw]) h
    have ht : TECHNICAL_PROBLEM_PHRASES.find?
        (fun p => containsSub (lowerText text) p) = none := by
      rw [List.find?_eq_none]
      intro p hp
      simp only [containsSub_iff, Bool.not_eq_true, ← Bool.not_eq_true,
        decide_eq_true_eq]
      exact fun h => hnone p (by simp [hp]) h
    have hg : GOOD_DAMAGE_KEYWORDS.filter
        (fun kw => containsSub (lowerText text) kw) = [] := by
      rw [List.filter_eq_nil_iff]
      intro kw hkw
      simp only [containsSub_iff, Bool.not_eq_true, ← Bool.not_eq_true,
        decide_eq_true_eq]
      exact fun h => hnone kw (by simp [hkw]) h
    simp only [analyze_damage_text]
    rw [hs, ht]
    simp [hg]

set_option maxRecDepth 100000 in
/-- Witness for C1 at concrete texts: `"Motorschade en lakschade"` is
non-cosmetic, `"mooie nette auto"` matches no lexicon and gets the
`No damage keywords found` verdict, and `"auto met lakschade"` is cosmetic. -/
theorem C1_damage_classifier_correct_witness :
    ((analyze_damage_text "auto met lakschade".toList).is_cosmetic = true ↔
        ((∀ kw ∈ SEVERE_DAMAGE_KEYWORDS,
            ¬ occursIn "auto met lakschade".toList kw) ∧
         (∀ p ∈ TECHNICAL_PROBLEM_PHRASES,
            ¬ occursIn "auto met lakschade".toList p) ∧
         (∃ kw ∈ GOOD_DAMAGE_KEYWORDS,
            occursIn "auto met lakschade".toList kw))) ∧
    (analyze_damage_text "Motorschade en lakschade".toList).is_cosmetic
        = false ∧
    analyze_damage_text "mooie nette auto".toList =
      ⟨false, "No damage keywords found", []⟩ :=
  ⟨C1_damage_classifier_correct.1 "auto met lakschade".toList,
   C1_damage_classifier_correct.2.1 "Motorschade en lakschade".toList
     (by decide) (by decide),
   C1_damage_classifier_correct.2.2 "mooie nette auto".toList (by decide)⟩

/-- C2: when the market price resolves to `m > 0`, `calculate_deal_metrics`
computes `profit_percentage = (m - a) / m * 100` exactly (negative values
preserved), and the rating is `excellent` iff `pp ≥ 50`, `good` iff
`30 ≤ pp < 50`, `fair` iff `15 ≤ pp < 30`, `poor` otherwise. -/
theorem C2_deal_scorer_correct (cache : PriceCache) (make model : String)
    (year : Int) (a m : ℚ) (ha : 0 < a) (hm : 0 < m)
    (hres : get_market_price cache make model year = some m) :
    calculate_deal_metrics cache make model year a =
      { market_price := some m,
        profit_percentage := some ((m - a) / m * 100),
        deal_rating := some (serviceDealRating ((m - a) / m * 100)) } ∧
    (∀ pp : ℚ,
      (serviceDealRating pp = "excellent" ↔ 50 ≤ pp) ∧
      (serviceDealRating pp = "good" ↔ 30 ≤ pp ∧ pp < 50) ∧
      (serviceDealRating pp = "fair" ↔ 15 ≤ pp ∧ pp < 30) ∧
      (serviceDealRating pp = "poor" ↔ pp < 15)) := by
  constructor
  · unfold calculate_deal_metrics
    rw [hres]
    simp [hm.ne']
  · intro pp
    unfold serviceDealRating
    split_ifs with h1 h2 h3 <;>
      refine ⟨?_, ?_, ?_, ?_⟩ <;> simp <;>
        first
          | linarith
          | (constructor <;> linarith)
          | (intro h; linarith)
          | (intro h; constructor <;> linarith)
          | (rintro ⟨h, h'⟩; linarith)
          | (constructor <;> intro h <;> linarith)

/-- Witness for C2: with a cached live market price of €2000 for
`(volkswagen, polo, 2016)`, asking €1000 scores 50.0 / excellent, €1900
scores 5.0 / poor, and €2100 scores −5.0 (not clamped) / poor. -/
theorem C2_deal_scorer_correct_witness :
    (0:ℚ) < 1000 ∧ (0:ℚ) < 2000 ∧
    get_market_price [(("volkswagen", "polo", 2016), some 2000)]
        "Volkswagen" "Polo" 2016 = some 2000 ∧
    calculate_deal_metrics [(("volkswagen", "polo", 2016), some 2000)]
        "Volkswagen" "Polo" 2016 1000 =
      ⟨some 2000, some 50, some "excellent"⟩ ∧
    calculate_deal_metrics [(("volkswagen", "polo", 2016), some 2000)]
        "Volkswagen" "Polo" 2016 1900 =
      ⟨some 2000, some 5, some "poor"⟩ ∧
    calculate_deal_metrics [(("volkswagen", "polo", 2016), some 2000)]
        "Volkswagen" "Polo" 2016 2100 =
      ⟨some 2000, some (-5), some "poor"⟩ := by
  have hres : get_market_price [(("volkswagen", "polo", 2016), some 2000)]
      "Volkswagen" "Polo" 2016 = some 2000 := rfl
  refine ⟨by norm_num, by norm_num, hres, ?_, ?_, ?_⟩
  · have h := (C2_deal_scorer_correct _ "Volkswagen" "Polo" 2016 1000 2000
      (by norm_num) (by norm_num) hres).1
    rw [h]
    norm_num [serviceDealRating]
  · have h := (C2_deal_scorer_correct _ "Volkswagen" "Polo" 2016 1900 2000
      (by norm_num) (by norm_num) hres).1
    rw [h]
    norm_num [serviceDealRating]
  · have h := (C2_deal_scorer_correct _ "Volkswagen" "Polo" 2016 2100 2000
      (by norm_num) (by norm_num) hres).1
    rw [h]
    norm_num [serviceDealRating]

/-- C5 counterexample: the two rating chains are not extensionally equal —
at profit percentage 0 the service rates `poor` while the SchadeAutos
adapter, whose chain has no `poor` branch, rates `fair`. -/
theorem C5_rating_consistency_counterexample :
    schadeautosDealRating 0 = "fair" ∧ serviceDealRating 0 = "poor" ∧
    schadeautosDealRating 0 ≠ serviceDealRating 0 := by
  have h1 : schadeautosDealRating 0 = "fair" := by
    norm_num [schadeautosDealRating]
  have h2 : serviceDealRating 0 = "poor" := by
    norm_num [serviceDealRating]
  exact ⟨h1, h2, by rw [h1, h2]; decide⟩

/-- C5 amended: the SchadeAutos rating chain agrees with the service rating
chain for every profit percentage ≥ 15 (in particular on every value the
adapter can emit, which are all ≥ 30); they differ only below 15, where the
adapter lacks a `poor` branch. -/
theorem C5_rating_consistency_amended (pp : ℚ) (h : 15 ≤ pp) :
    schadeautosDealRating pp = serviceDealRating pp := by
  unfold schadeautosDealRating serviceDealRating
  split_ifs <;> first | rfl | linarith

/-- Witness for the amended C5 at profit percentage 20. -/
theorem C5_rating_consistency_amended_witness :
    (15:ℚ) ≤ 20 ∧ schadeautosDealRating 20 = serviceDealRating 20 :=
  ⟨by norm_num, C5_rating_consistency_amended 20 (by norm_num)⟩

/-- Python `round(·, 1)` of a value ≥ 30 stays ≥ 30. -/
lemma le_pyRound1_of_le (x : ℚ) (h : 30 ≤ x) : 30 ≤ pyRound1 x := by
  unfold pyRound1 pyRoundHalfEven
  have h300 : (300:ℤ) ≤ ⌊x * 10⌋ := by
    apply Int.le_floor.mpr
    push_cast
    linarith
  have h10 : (0:ℚ) < 10 := by norm_num
  have h300q : (300:ℚ) ≤ (⌊x * 10⌋ : ℚ) := by exact_mod_cast h300
  split_ifs <;> rw [le_div_iff h10] <;> push_cast <;> linarith

/-- C10: every record the SchadeAutos candidate loop emits (market price
`mp > 0` resolved) has price > €500 and price ≤ 0.70·mp, hence a stored
profit percentage ≥ 30 and a rating of `excellent` or `good` — the `fair`
branch is unreachable for emitted records. -/
theorem C10_schadeautos_emitted_records_safe (mp : ℚ) (hmp : 0 < mp)
    (cands : List SACandidate) (seen : List String) :
    ∀ r ∈ processYearCandidates mp cands seen,
      500 < r.price ∧ r.price ≤ mp * (7/10) ∧
      30 ≤ r.profit_percentage ∧
      (r.deal_rating = "excellent" ∨ r.deal_rating = "good") := by
  induction cands generalizing seen with
  | nil => intro r hr; simp [processYearCandidates] at hr
  | cons c rest ih =>
    intro r hr
    by_cases hskip : c.url = "" ∨ c.url ∈ seen
    · unfold processYearCandidates at hr
      rw [if_pos hskip] at hr
      exact ih seen r hr
    · rcases hp : c.price with _ | p
      · simp only [processYearCandidates, hp, hskip] at hr
        exact ih _ r hr
      · by_cases h500 : p ≤ 500
        · simp only [processYearCandidates, hp, hskip, h500] at hr
          simp only [if_true] at hr
          exact ih _ r hr
        · by_cases hthr : p > mp * (7/10)
          · simp only [processYearCandidates, hp, hskip, h500, hthr] at hr
            simp only [if_true, if_false] at hr
            exact ih _ r hr
          · simp only [processYearCandidates, hp, hskip, h500, hthr] at hr
            simp only [if_false, List.mem_cons] at hr
            rcases hr with hrec | hrest
            · subst hrec
              push_neg at h500 hthr
              have hpp : 30 ≤ (mp - p) / mp * 100 := by
                rw [div_mul_eq_mul_div, le_div_iff hmp]
                linarith
              refine ⟨h500, hthr, le_pyRound1_of_le _ hpp, ?_⟩
              unfold schadeautosDealRating
              by_cases h1 : (mp - p) / mp * 100 ≥ 50
              · rw [if_pos h1]
                exact Or.inl rfl
              · rw [if_neg h1,
                  if_pos (show (mp - p) / mp * 100 ≥ 30 from hpp)]
                exact Or.inr rfl
            · exact ih _ r hrest

/-- Witness for C10: market price €1000, one candidate at €600 — the
emitted record satisfies the bounds. -/
theorem C10_schadeautos_emitted_records_safe_witness :
    (0:ℚ) < 1000 ∧
    ∀ r ∈ processYearCandidates 1000
        [⟨"https://www.schadeautos.nl/x", some 600⟩] [],
      500 < r.price ∧ r.price ≤ 1000 * (7/10) ∧
      30 ≤ r.profit_percentage ∧
      (r.deal_rating = "excellent" ∨ r.deal_rating = "good") :=
  ⟨by norm_num,
   C10_schadeautos_emitted_records_safe 1000 (by norm_num)
     [⟨"https://www.schadeautos.nl/x", some 600⟩] []⟩

/-- After any `fetch_live_market_price` call, the cache maps the key to the
value the call returned. -/
lemma fetch_caches_result (cache : PriceCache) (make model : String)
    (year : Int) (L : List MpListing) :
    cacheLookup (fetch_live_market_price cache make model year L).cache
        (lowerStr make, lowerStr model, year) =
      some (fetch_live_market_price cache make model year L).value := by
  unfold fetch_live_market_price
  cases hc : cacheLookup cache (lowerStr make, lowerStr model, year) with
  | some v => simpa using hc
  | none =>
    by_cases hp : searchMarktplaatsPrices year L = [] <;>
      simp [hp, cacheLookup, List.find?_cons_of_pos]

/-- A call whose key is already cached returns the cached value, leaves the
cache unchanged, and performs no external search. -/
lemma fetch_cache_hit (cache : PriceCache) (make model : String)
    (year : Int) (L : List MpListing) (v : Option ℚ)
    (h : cacheLookup cache (lowerStr make, lowerStr model, year) = some v) :
    fetch_live_market_price cache make model year L = ⟨v, cache, 0⟩ := by
  unfold fetch_live_market_price
  rw [h]

/-- C4 counterexample: a single undamaged peer listing at €1500 passes every
filter, leaving a sample of size 1 — yet `fetch_live_market_price` returns
the non-null median €1500, so no minimum of 3 samples is enforced. -/
theorem C4_live_sampler_counterexample :
    (searchMarktplaatsPrices 2018
        [⟨"toyota yaris".toList, [], some 150000, none⟩]).length = 1 ∧
    ¬ 3 ≤ (searchMarktplaatsPrices 2018
        [⟨"toyota yaris".toList, [], some 150000, none⟩]).length ∧
    (fetch_live_market_price [] "Toyota" "Yaris" 2018
        [⟨"toyota yaris".toList, [], some 150000, none⟩]).value =
      some 1500 := by
  have hl : listingPrice 2018 ⟨"toyota yaris".toList, [], some 150000, none⟩ =
      (if (((150000:ℕ):ℚ)/100) < 1000 then none
       else if (((150000:ℕ):ℚ)/100) > 30000 then none
       else some (((150000:ℕ):ℚ)/100)) := rfl
  rw [if_neg (by norm_num), if_neg (by norm_num)] at hl
  have hs : searchMarktplaatsPrices 2018
      [⟨"toyota yaris".toList, [], some 150000, none⟩] =
      [((150000:ℕ):ℚ)/100] := by
    unfold searchMarktplaatsPrices
    rw [List.filterMap_cons, hl]
    rfl
  refine ⟨by rw [hs]; rfl, by rw [hs]; norm_num, ?_⟩
  have hv : (fetch_live_market_price [] "Toyota" "Yaris" 2018
      [⟨"toyota yaris".toList, [], some 150000, none⟩]).value =
      some (median [((150000:ℕ):ℚ)/100]) := by
    unfold fetch_live_market_price
    simp only [hs]
    rfl
  rw [hv]
  norm_num [median, sortRat, insertSorted]

/-- C4 amended: `fetch_live_market_price` returns the median of the
filtered, capped sample whenever at least ONE sample remains (no minimum of
3), `none` otherwise; the outcome — including a failed lookup — is cached
per key, so a repeated call returns the same value with zero further
external searches and an unchanged cache. -/
theorem C4_live_sampler_amended :
    (∀ (cache : PriceCache) (make model : String) (year : Int)
        (L1 L2 : List MpListing),
      fetch_live_market_price
          (fetch_live_market_price cache make model year L1).cache
          make model year L2 =
        ⟨(fetch_live_market_price cache make model year L1).value,
         (fetch_live_market_price cache make model year L1).cache, 0⟩) ∧
    (∀ (make model : String) (year : Int) (L : List MpListing),
      (fetch_live_market_price [] make model year L).value =
        if searchMarktplaatsPrices year L = [] then none
        else some (median (searchMarktplaatsPrices year L))) := by
  constructor
  · intro cache make model year L1 L2
    exact fetch_cache_hit _ _ _ _ _ _
      (fetch_caches_result cache make model year L1)
  · intro make model year L
    show (fetch_live_market_price [] make model year L).value = _
    unfold fetch_live_market_price
    have hc : cacheLookup [] (lowerStr make, lowerStr model, year) = none := rfl
    rw [hc]
    by_cases hp : searchMarktplaatsPrices year L = [] <;> simp [hp]

/-- C6 counterexample: a historical table with only 2 samples for the exact
year (2016) but 5 for the neighbouring year (2017).  `_get_market_price_from_db`
returns `None` — it never widens to nearby years, so the claimed
depreciation-adjusted neighbouring-year value (median · 0.9) is not
produced. -/
theorem C6_db_estimator_counterexample :
    getMarketPriceFromDb
      [⟨"marktplaats.nl", "volkswagen".toList, "polo".toList, 2016, some 6000⟩,
       ⟨"marktplaats.nl", "volkswagen".toList, "polo".toList, 2016, some 6200⟩,
       ⟨"marktplaats.nl", "volkswagen".toList, "polo".toList, 2017, some 6000⟩,
       ⟨"marktplaats.nl", "volkswagen".toList, "polo".toList, 2017, some 6000⟩,
       ⟨"marktplaats.nl", "volkswagen".toList, "polo".toList, 2017, some 6000⟩,
       ⟨"marktplaats.nl", "volkswagen".toList, "polo".toList, 2017, some 6000⟩,
       ⟨"marktplaats.nl", "volkswagen".toList, "polo".toList, 2017, some 6000⟩]
      "Volkswagen".toList "Polo".toList 2016 = none ∧
    (none : Option ℚ) ≠
      some (median [6000, 6000, 6000, 6000, 6000] * ((9:ℚ)/10)) := by
  constructor
  · rfl
  · intro h
    exact Option.noConfusion h

/-- C6 amended: `_get_market_price_from_db` consults only rows of the exact
requested year (rows of any other year never influence the result), and when
it yields `None` — e.g. with fewer than 3 exact-year samples — the caller
falls back to the static-table estimate with the baseline-2020 depreciation
`0.9 ^ max 0 (2020 − year)`, not to neighbouring-year data. -/
theorem C6_db_estimator_amended :
    (∀ (rows : List DbCar) (make model : List Char) (year : Int),
      getMarketPriceFromDb rows make model year =
        getMarketPriceFromDb (rows.filter (fun r => r.year = year))
          make model year) ∧
    (∀ (rows : List DbCar) (make model : String) (year : Int),
      getMarketPriceFromDb rows make.toList model.toList year = none →
      saResolveMarketPrice rows make model year =
        ((fallback_prices.find?
            (fun e => e.1 = (make, lowerStr model))).map Prod.snd).map
          (fun fp => fp * ((9:ℚ)/10) ^ (max 0 (2020 - year)).toNat)) := by
  constructor
  · intro rows make model year
    unfold getMarketPriceFromDb
    have aux : ∀ l : List DbCar,
        l.filterMap (fun r =>
          if r.source_website = "marktplaats.nl" ∧
              containsSub (lowerText r.make) (lowerText make) ∧
              containsSub (lowerText r.model) (lowerText model) ∧
              r.year = year then
            match r.market_price with
            | some p => if p ≠ 0 then some p else none
            | none => none
          else none) =
        (l.filter (fun r => r.year = year)).filterMap (fun r =>
          if r.source_website = "marktplaats.nl" ∧
              containsSub (lowerText r.make) (lowerText make) ∧
              containsSub (lowerText r.model) (lowerText model) ∧
              r.year = year then
            match r.market_price with
            | some p => if p ≠ 0 then some p else none
            | none => none
          else none) := by
      intro l
      induction l with
      | nil => rfl
      | cons r rest ih =>
        by_cases hy : r.year = year
        · rw [List.filter_cons_of_pos (by simpa using hy),
            List.filterMap_cons, List.filterMap_cons, ih]
        · rw [List.filter_cons_of_neg (by simpa using hy),
            List.filterMap_cons,
            if_neg (by intro hcon; exact hy hcon.2.2.2)]
          exact ih
    rw [aux]
  · intro rows make model year h
    unfold saResolveMarketPrice
    rw [h]
    unfold get_market_price
    have hc : cacheLookup [] (lowerStr make, lowerStr model, year) = none := rfl
    rw [hc]
    cases hf : (fallback_prices.find?
        (fun e => e.1 = (make, lowerStr model))) with
    | none => simp [hf]
    | some e => simp [hf]

/-- Witness for the amended C6 at the counterexample table: the DB estimator
yields `None` (2 exact-year samples) and the resolver produces the static
fallback price 3450 · 0.9⁴ for (Volkswagen, Polo, 2016). -/
theorem C6_db_estimator_amended_witness :
    getMarketPriceFromDb
      [⟨"marktplaats.nl", "volkswagen".toList, "polo".toList, 2016, some 6000⟩,
       ⟨"marktplaats.nl", "volkswagen".toList, "polo".toList, 2016, some 6200⟩,
       ⟨"marktplaats.nl", "volkswagen".toList, "polo".toList, 2017, some 6000⟩,
       ⟨"marktplaats.nl", "volkswagen".toList, "polo".toList, 2017, some 6000⟩,
       ⟨"marktplaats.nl", "volkswagen".toList, "polo".toList, 2017, some 6000⟩,
       ⟨"marktplaats.nl", "volkswagen".toList, "polo".toList, 2017, some 6000⟩,
       ⟨"marktplaats.nl", "volkswagen".toList, "polo".toList, 2017, some 6000⟩]
      "Volkswagen".toList "Polo".toList 2016 = none ∧
    saResolveMarketPrice
      [⟨"marktplaats.nl", "volkswagen".toList, "polo".toList, 2016, some 6000⟩,
       ⟨"marktplaats.nl", "volkswagen".toList, "polo".toList, 2016, some 6200⟩,
       ⟨"marktplaats.nl", "volkswagen".toList, "polo".toList, 2017, some 6000⟩,
       ⟨"marktplaats.nl", "volkswagen".toList, "polo".toList, 2017, some 6000⟩,
       ⟨"marktplaats.nl", "volkswagen".toList, "polo".toList, 2017, some 6000⟩,
       ⟨"marktplaats.nl", "volkswagen".toList, "polo".toList, 2017, some 6000⟩,
       ⟨"marktplaats.nl", "volkswagen".toList, "polo".toList, 2017, some 6000⟩]
      "Volkswagen" "Polo" 2016 =
      ((fallback_prices.find?
          (fun e => e.1 = ("Volkswagen", lowerStr "Polo"))).map Prod.snd).map
        (fun fp => fp * ((9:ℚ)/10) ^ (max 0 (2020 - (2016:ℤ))).toNat) :=
  ⟨rfl, C6_db_estimator_amended.2 _ "Volkswagen" "Polo" 2016 rfl⟩

/-- C7 counterexample: five search terms whose first three fetches come back
empty.  With a succeeding browser restart the loop continues and processes
terms 3 and 4; with a failing restart the loop `break`s and the remaining
terms of that source — whose own fetches would succeed — are never
processed.  So a failed recycle does prevent the remaining terms of the
source from being processed, contradicting the claim. -/
theorem C7_recycle_counterexample :
    mpTermLoop (fun _ => true) [false, false, false, true, true] 0 0 0 =
      [3, 4] ∧
    mpTermLoop (fun _ => false) [false, false, false, true, true] 0 0 0 =
      [] := by
  constructor <;> rfl

/-- C7 amended: after 3 consecutive empty fetches the adapter recycles its
browser and — whenever recycling succeeds — continues with the remaining
search terms, processing exactly the terms whose fetches succeed; a failed
recycle stops the remaining terms of that source (see the counterexample).
Other sources are unaffected either way: the run reports the second source's
outcome regardless of the first source's. -/
theorem C7_recycle_amended (restarts : Nat → Bool)
    (hok : ∀ n, restarts n = true) :
    (∀ (fetches : List Bool) (i consec rUsed : Nat),
      mpTermLoop restarts fetches i consec rUsed = processedAll fetches i) ∧
    (∀ m m' st : Option (List String),
      (run_scraping_session m st).length = 2 ∧
      (run_scraping_session m st).getLast? =
        (run_scraping_session m' st).getLast?) := by
  constructor
  · intro fetches
    induction fetches with
    | nil => intro i consec rUsed; rfl
    | cons f rest ih =>
      intro i consec rUsed
      cases f with
      | true =>
        by_cases hi : 0 < i ∧ i % 5 = 0 <;>
          simp [mpTermLoop, hi, hok, ih, processedAll]
      | false =>
        by_cases hi : 0 < i ∧ i % 5 = 0
        · simp [mpTermLoop, hi, hok, ih, processedAll]
        · by_cases hc : 3 ≤ consec + 1 <;>
            simp [mpTermLoop, hi, hc, hok, ih, processedAll]
  · intro m m' st
    constructor <;> rfl

/-- Witness for the amended C7: with always-succeeding restarts, the
counterexample's fetch pattern processes exactly the terms with successful
fetches, `[3, 4]`. -/
theorem C7_recycle_amended_witness :
    (∀ n, (fun _ => true : Nat → Bool) n = true) ∧
    mpTermLoop (fun _ => true) [false, false, false, true, true] 0 0 0 =
      processedAll [false, false, false, true, true] 0 :=
  ⟨fun _ => rfl,
   (C7_recycle_amended (fun _ => true) (fun _ => rfl)).1
     [false, false, false, true, true] 0 0 0⟩

/-- C8 counterexample: with a run already in progress
(`scraping_in_progress = true`, one active run), the manual API trigger
(`POST /api/scraping/run`) performs no in-progress check: it starts one
additional run, giving two concurrently active runs — not the claimed zero
additional runs. -/
theorem C8_mutual_exclusion_counterexample :
    runsStartedBy ⟨true, 1⟩ .manualApi = 1 ∧
    runsStartedBy ⟨true, 1⟩ .manualApi ≠ 0 ∧
    (stepTrigger ⟨true, 1⟩ .manualApi).active_runs = 2 := by
  refine ⟨rfl, ?_, rfl⟩
  decide

/-- C8 amended: only the scheduler path enforces mutual exclusion — a
scheduled trigger arriving while `scraping_in_progress` is set starts zero
additional runs and leaves the state unchanged (nothing queued); the manual
API trigger always starts exactly one run, without consulting the flag. -/
theorem C8_mutual_exclusion_amended (s : RunState)
    (h : s.scraping_in_progress = true) :
    runsStartedBy s .scheduled = 0 ∧
    stepTrigger s .scheduled = s ∧
    runsStartedBy s .manualApi = 1 := by
  unfold runsStartedBy stepTrigger
  simp [h]

/-- Witness for the amended C8 at the busy state. -/
theorem C8_mutual_exclusion_amended_witness :
    (⟨true, 1⟩ : RunState).scraping_in_progress = true ∧
    (runsStartedBy ⟨true, 1⟩ .scheduled = 0 ∧
     stepTrigger ⟨true, 1⟩ .scheduled = ⟨true, 1⟩ ∧
     runsStartedBy ⟨true, 1⟩ .manualApi = 1) :=
  ⟨rfl, C8_mutual_exclusion_amended ⟨true, 1⟩ rfl⟩

/-- `dedupPass` output: no duplicates, and nothing from `seen`. -/
lemma dedupPass_spec : ∀ (l seen : List String),
    (dedupPass l seen).Nodup ∧ ∀ u ∈ dedupPass l seen, u ∉ seen := by
  intro l
  induction l with
  | nil => intro seen; exact ⟨List.nodup_nil, by simp [dedupPass]⟩
  | cons u rest ih =>
    intro seen
    unfold dedupPass
    by_cases hu : u ∈ seen
    · rw [if_pos hu]
      exact ih seen
    · rw [if_neg hu]
      refine ⟨List.nodup_cons.mpr ⟨?_, (ih (u :: seen)).1⟩, ?_⟩
      · intro hmem
        exact (ih (u :: seen)).2 u hmem (List.mem_cons_self u seen)
      · intro v hv
        rcases List.mem_cons.mp hv with rfl | hv'
        · exact hu
        · intro hvseen
          exact (ih (u :: seen)).2 v hv' (List.mem_cons_of_mem _ hvseen)

/-- `dedupPass` membership: exactly the input urls not in `seen`. -/
lemma dedupPass_mem : ∀ (l seen : List String) (u : String),
    u ∈ dedupPass l seen ↔ (u ∈ l ∧ u ∉ seen) := by
  intro l
  induction l with
  | nil => intro seen u; simp [dedupPass]
  | cons v rest ih =>
    intro seen u
    unfold dedupPass
    by_cases hv : v ∈ seen
    · rw [if_pos hv, ih]
      constructor
      · rintro ⟨h1, h2⟩; exact ⟨List.mem_cons_of_mem _ h1, h2⟩
      · rintro ⟨h1, h2⟩
        rcases List.mem_cons.mp h1 with rfl | h1'
        · exact absurd hv h2
        · exact ⟨h1', h2⟩
    · rw [if_neg hv]
      constructor
      · intro h
        rcases List.mem_cons.mp h with rfl | h'
        · exact ⟨List.mem_cons_self _ _, hv⟩
        · rcases (ih (v :: seen) u).mp h' with ⟨h1, h2⟩
          exact ⟨List.mem_cons_of_mem _ h1,
            fun hs => h2 (List.mem_cons_of_mem _ hs)⟩
      · rintro ⟨h1, h2⟩
        rcases List.mem_cons.mp h1 with rfl | h1'
        · exact List.mem_cons_self _ _
        · by_cases huv : u = v
          · subst huv; exact List.mem_cons_self _ _
          · refine List.mem_cons_of_mem _ ((ih (v :: seen) u).mpr ⟨h1', ?_⟩)
            intro hs
            rcases List.mem_cons.mp hs with h | h
            · exact huv h
            · exact h2 h

/-- `mpCollectUrls` membership: exactly the kept input urls not in `seen`. -/
lemma mpCollectUrls_mem (keep : String → Bool) : ∀ (l seen : List String)
    (u : String),
    u ∈ mpCollectUrls keep l seen ↔
      (u ∈ l ∧ keep u = true ∧ u ∉ seen) := by
  intro l
  induction l with
  | nil => intro seen u; simp [mpCollectUrls]
  | cons v rest ih =>
    intro seen u
    unfold mpCollectUrls
    by_cases hv : v ∈ seen
    · rw [if_pos hv, ih]
      constructor
      · rintro ⟨h1, h2, h3⟩; exact ⟨List.mem_cons_of_mem _ h1, h2, h3⟩
      · rintro ⟨h1, h2, h3⟩
        rcases List.mem_cons.mp h1 with rfl | h1'
        · exact absurd hv h3
        · exact ⟨h1', h2, h3⟩
    · rw [if_neg hv]
      by_cases hk : keep v
      · rw [if_pos hk]
        constructor
        · intro h
          rcases List.mem_cons.mp h with rfl | h'
          · exact ⟨List.mem_cons_self _ _, hk, hv⟩
          · rcases (ih (v :: seen) u).mp h' with ⟨h1, h2, h3⟩
            exact ⟨List.mem_cons_of_mem _ h1, h2,
              fun hs => h3 (List.mem_cons_of_mem _ hs)⟩
        · rintro ⟨h1, h2, h3⟩
          rcases List.mem_cons.mp h1 with rfl | h1'
          · exact List.mem_cons_self _ _
          · by_cases huv : u = v
            · subst huv; exact List.mem_cons_self _ _
            · refine List.mem_cons_of_mem _
                ((ih (v :: seen) u).mpr ⟨h1', h2, ?_⟩)
              intro hs
              rcases List.mem_cons.mp hs with h | h
              · exact huv h
              · exact h3 h
      · rw [if_neg hk]
        rw [ih]
        constructor
        · rintro ⟨h1, h2, h3⟩
          exact ⟨List.mem_cons_of_mem _ h1, h2,
            fun hs => h3 (List.mem_cons_of_mem _ hs)⟩
        · rintro ⟨h1, h2, h3⟩
          rcases List.mem_cons.mp h1 with rfl | h1'
          · exact absurd h2 hk
          · refine ⟨h1', h2, ?_⟩
            intro hs
            rcases List.mem_cons.mp hs with h | h
            · subst h; exact hk (by exact h2)
            · exact h3 h

/-- The url lists `processYearCandidates` emits: no duplicates, nothing
from `seen`. -/
lemma processYC_urls_spec (mp : ℚ) : ∀ (cands : List SACandidate)
    (seen : List String),
    (((processYearCandidates mp cands seen).map SARecord.url)).Nodup ∧
    ∀ u ∈ (processYearCandidates mp cands seen).map SARecord.url,
      u ∉ seen := by
  intro cands
  induction cands with
  | nil => intro seen; simp [processYearCandidates]
  | cons c rest ih =>
    intro seen
    by_cases hskip : c.url = "" ∨ c.url ∈ seen
    · have heq : processYearCandidates mp (c :: rest) seen =
          processYearCandidates mp rest seen := by
        rcases hskip with h | h <;> simp [processYearCandidates, h]
      rw [heq]
      exact ih seen
    · rcases hp : c.price with _ | p
      · have heq : processYearCandidates mp (c :: rest) seen =
            processYearCandidates mp rest (c.url :: seen) := by
          simp [processYearCandidates, hp, hskip]
        rw [heq]
        have ihs := ih (c.url :: seen)
        exact ⟨ihs.1, fun u hu hs =>
          ihs.2 u hu (List.mem_cons_of_mem _ hs)⟩
      · by_cases h500 : p ≤ 500
        · have heq : processYearCandidates mp (c :: rest) seen =
              processYearCandidates mp rest (c.url :: seen) := by
            simp [processYearCandidates, hp, hskip, h500]
          rw [heq]
          have ihs := ih (c.url :: seen)
          exact ⟨ihs.1, fun u hu hs =>
            ihs.2 u hu (List.mem_cons_of_mem _ hs)⟩
        · by_cases hthr : p > mp * (7/10)
          · have heq : processYearCandidates mp (c :: rest) seen =
                processYearCandidates mp rest (c.url :: seen) := by
              simp [processYearCandidates, hp, hskip, h500, hthr]
            rw [heq]
            have ihs := ih (c.url :: seen)
            exact ⟨ihs.1, fun u hu hs =>
              ihs.2 u hu (List.mem_cons_of_mem _ hs)⟩
          · have heq : processYearCandidates mp (c :: rest) seen =
                { url := c.url, price := p, market_price := mp,
                  profit_percentage := pyRound1 ((mp - p) / mp * 100),
                  deal_rating :=
                    schadeautosDealRating ((mp - p) / mp * 100) } ::
                processYearCandidates mp rest (c.url :: seen) := by
              simp [processYearCandidates, hp, hskip, h500, hthr]
            rw [heq]
            have ihs := ih (c.url :: seen)
            push_neg at hskip
            constructor
            · rw [List.map_cons]
              refine List.nodup_cons.mpr ⟨?_, ihs.1⟩
              intro hmem
              exact ihs.2 c.url hmem (List.mem_cons_self _ _)
            · intro u hu
              rw [List.map_cons] at hu
              rcases List.mem_cons.mp hu with rfl | hu'
              · exact hskip.2
              · intro huseen
                exact ihs.2 u hu' (List.mem_cons_of_mem _ huseen)

/-- C9 counterexample: within one run, deduplication is per source adapter,
not run-wide.  The url `"u"` yielded under two different Marktplaats search
terms appears once in the Marktplaats output (one upsert) — but if the
SchadeAutos adapter also yields `"u"` in the same run, the run issues TWO
upserts for that url, not one. -/
theorem C9_run_dedup_counterexample :
    mpRunUrls (fun _ => true) [["u"], ["u"]] = ["u"] ∧
    (processYearCandidates 1000 [⟨"u", some 600⟩] []).map SARecord.url =
      ["u"] ∧
    runUpsertCount (mpRunUrls (fun _ => true) [["u"], ["u"]])
      ((processYearCandidates 1000 [⟨"u", some 600⟩] []).map SARecord.url)
      "u" = 2 ∧
    runUpsertCount (mpRunUrls (fun _ => true) [["u"], ["u"]])
      ((processYearCandidates 1000 [⟨"u", some 600⟩] []).map SARecord.url)
      "u" ≠ 1 := by
  have hmp : mpRunUrls (fun _ => true) [["u"], ["u"]] = ["u"] := rfl
  have hsa : processYearCandidates 1000 [⟨"u", some 600⟩] [] =
      [{ url := "u", price := 600, market_price := 1000,
         profit_percentage := pyRound1 ((1000 - 600) / 1000 * 100),
         deal_rating := schadeautosDealRating ((1000 - 600) / 1000 * 100) }] := by
    norm_num [processYearCandidates]
    decide
  rw [hmp, hsa]
  refine ⟨rfl, rfl, rfl, by decide⟩

/-- C9 amended: deduplication by url happens inside each source adapter,
across all of that source's search terms: a url yielded any number of times
by one source appears exactly once in that source's output, hence gets
exactly one upsert from that source; both adapters' outputs are
duplicate-free.  (Run-wide dedup across the two sources does not exist —
see the counterexample.) -/
theorem C9_run_dedup_amended :
    (∀ (keep : String → Bool) (tcs : List (List String)) (u : String),
      u ∈ tcs.flatten → keep u = true →
      (mpRunUrls keep tcs).count u = 1) ∧
    (∀ (keep : String → Bool) (tcs : List (List String)),
      (mpRunUrls keep tcs).Nodup) ∧
    (∀ (mp : ℚ) (cands : List SACandidate) (seen : List String),
      ((processYearCandidates mp cands seen).map SARecord.url).Nodup) := by
  refine ⟨?_, ?_, ?_⟩
  · intro keep tcs u hu hk
    have hmem : u ∈ mpRunUrls keep tcs := by
      unfold mpRunUrls
      rw [dedupPass_mem]
      refine ⟨?_, by simp⟩
      rw [mpCollectUrls_mem]
      exact ⟨hu, hk, by simp⟩
    exact List.count_eq_one_of_mem (dedupPass_spec _ _).1 hmem
  · intro keep tcs
    exact (dedupPass_spec _ _).1
  · intro mp cands seen
    exact (processYC_urls_spec mp cands seen).1

/-- Witness for the amended C9: the url `"u"` fed under two different
search terms appears exactly once in the Marktplaats run output. -/
theorem C9_run_dedup_amended_witness :
    ("u" ∈ ([["u"], ["u"]] : List (List String)).flatten) ∧
    ((fun _ => true : String → Bool) "u" = true) ∧
    (mpRunUrls (fun _ => true) [["u"], ["u"]]).count "u" = 1 :=
  ⟨by decide, rfl,
   C9_run_dedup_amended.1 (fun _ => true) [["u"], ["u"]] "u"
     (by decide) rfl⟩

/-- C3 counterexample: the claim covers both price normalizers, but
`BaseScraper.clean_price` does not follow the Dutch disambiguation rule:
for `"1,234"` (single comma followed by 3 digits — a thousands separator
under the rule, so 1234.0) it unconditionally maps `','` to `'.'` and parses
1.234. -/
theorem C3_price_normalizer_counterexample :
    cleanPriceBase "1,234".toList = some (617/500) ∧
    ((617:ℚ)/500) ≠ 1234 := by
  constructor
  · rw [show cleanPriceBase "1,234".toList = pyFloat "1.234".toList from rfl,
      show pyFloat "1.234".toList =
        some ((digitsToNat "1".toList : ℚ) +
          (digitsToNat "234".toList : ℚ) / (10:ℚ) ^ (3:ℕ)) from rfl,
      show digitsToNat "1".toList = 1 from rfl,
      show digitsToNat "234".toList = 234 from rfl]
    norm_num
  · norm_num

/-- C3 amended: `ProfitableCarScraper.clean_price` follows the Dutch
disambiguation rule — shown on a representative input for every branch
(both separators, dot-thousands, comma-thousands, comma-decimal,
dot-decimal) — and maps malformed input to null; `BaseScraper.clean_price`
instead always strips `'.'` and maps `','` to `'.'`, which agrees on the
cited examples and on malformed input but not on comma-as-thousands inputs
(see the counterexample). -/
theorem C3_price_normalizer_amended :
    cleanPriceProfitable "€2.900,-".toList = some 2900 ∧
    cleanPriceProfitable "€ 12.500,00".toList = some 12500 ∧
    cleanPriceProfitable "2900".toList = some 2900 ∧
    cleanPriceProfitable "2.900".toList = some 2900 ∧
    cleanPriceProfitable "1,234".toList = some 1234 ∧
    cleanPriceProfitable "12,34".toList = some (1234/100) ∧
    cleanPriceProfitable "1.5".toList = some (15/10) ∧
    cleanPriceProfitable "".toList = none ∧
    cleanPriceProfitable "€".toList = none ∧
    cleanPriceProfitable "n/a".toList = none ∧
    cleanPriceBase "€2.900,-".toList = some 2900 ∧
    cleanPriceBase "€ 12.500,00".toList = some 12500 ∧
    cleanPriceBase "2900".toList = some 2900 ∧
    cleanPriceBase "".toList = none ∧
    cleanPriceBase "€".toList = none ∧
    cleanPriceBase "n/a".toList = none := by
  refine ⟨?_, ?_, ?_, ?_, ?_, ?_, ?_, rfl, rfl, rfl, ?_, ?_, ?_, rfl, rfl, rfl⟩
  · rw [show cleanPriceProfitable "€2.900,-".toList =
        pyFloat "2900".toList from rfl,
      show pyFloat "2900".toList =
        some ((digitsToNat "2900".toList : ℚ) +
          (digitsToNat "".toList : ℚ) / (10:ℚ) ^ (0:ℕ)) from rfl,
      show digitsToNat "2900".toList = 2900 from rfl,
      show digitsToNat "".toList = 0 from rfl]
    norm_num
  · rw [show cleanPriceProfitable "€ 12.500,00".toList =
        pyFloat "12500.00".toList from rfl,
      show pyFloat "12500.00".toList =
        some ((digitsToNat "12500".toList : ℚ) +
          (digitsToNat "00".toList : ℚ) / (10:ℚ) ^ (2:ℕ)) from rfl,
      show digitsToNat "12500".toList = 12500 from rfl,
      show digitsToNat "00".toList = 0 from rfl]
    norm_num
  · rw [show cleanPriceProfitable "2900".toList =
        pyFloat "2900".toList from rfl,
      show pyFloat "2900".toList =
        some ((digitsToNat "2900".toList : ℚ) +
          (digitsToNat "".toList : ℚ) / (10:ℚ) ^ (0:ℕ)) from rfl,
      show digitsToNat "2900".toList = 2900 from rfl,
      show digitsToNat "".toList = 0 from rfl]
    norm_num
  · rw [show cleanPriceProfitable "2.900".toList =
        pyFloat "2900".toList from rfl,
      show pyFloat "2900".toList =
        some ((digitsToNat "2900".toList : ℚ) +
          (digitsToNat "".toList : ℚ) / (10:ℚ) ^ (0:ℕ)) from rfl,
      show digitsToNat "2900".toList = 2900 from rfl,
      show digitsToNat "".toList = 0 from rfl]
    norm_num
  · rw [show cleanPriceProfitable "1,234".toList =
        pyFloat "1234".toList from rfl,
      show pyFloat "1234".toList =
        some ((digitsToNat "1234".toList : ℚ) +
          (digitsToNat "".toList : ℚ) / (10:ℚ) ^ (0:ℕ)) from rfl,
      show digitsToNat "1234".toList = 1234 from rfl,
      show digitsToNat "".toList = 0 from rfl]
    norm_num
  · rw [show cleanPriceProfitable "12,34".toList =
        pyFloat "12.34".toList from rfl,
      show pyFloat "12.34".toList =
        some ((digitsToNat "12".toList : ℚ) +
          (digitsToNat "34".toList : ℚ) / (10:ℚ) ^ (2:ℕ)) from rfl,
      show digitsToNat "12".toList = 12 from rfl,
      show digitsToNat "34".toList = 34 from rfl]
    norm_num
  · rw [show cleanPriceProfitable "1.5".toList =
        pyFloat "1.5".toList from rfl,
      show pyFloat "1.5".toList =
        some ((digitsToNat "1".toList : ℚ) +
          (digitsToNat "5".toList : ℚ) / (10:ℚ) ^ (1:ℕ)) from rfl,
      show digitsToNat "1".toList = 1 from rfl,
      show digitsToNat "5".toList = 5 from rfl]
    norm_num
  · rw [show cleanPriceBase "€2.900,-".toList =
        pyFloat "2900.".toList from rfl,
      show pyFloat "2900.".toList =
        some ((digitsToNat "2900".toList : ℚ) +
          (digitsToNat "".toList : ℚ) / (10:ℚ) ^ (0:ℕ)) from rfl,
      show digitsToNat "2900".toList = 2900 from rfl,
      show digitsToNat "".toList = 0 from rfl]
    norm_num
  · rw [show cleanPriceBase "€ 12.500,00".toList =
        pyFloat "12500.00".toList from rfl,
      show pyFloat "12500.00".toList =
        some ((digitsToNat "12500".toList : ℚ) +
          (digitsToNat "00".toList : ℚ) / (10:ℚ) ^ (2:ℕ)) from rfl,
      show digitsToNat "12500".toList = 12500 from rfl,
      show digitsToNat "00".toList = 0 from rfl]
    norm_num
  · rw [show cleanPriceBase "2900".toList =
        pyFloat "2900".toList from rfl,
      show pyFloat "2900".toList =
        some ((digitsToNat "2900".toList : ℚ) +
          (digitsToNat "".toList : ℚ) / (10:ℚ) ^ (0:ℕ)) from rfl,
      show digitsToNat "2900".toList = 2900 from rfl,
      show digitsToNat "".toList = 0 from rfl]
    norm_num

end Schade
